import Mathlib

/-!
Shallow embedding of `PastUSB.py`, a forensic tool that reconstructs the
connection history of USB storage devices from Windows registry artifacts and
Linux syslog files.  Python strings are modelled as Lean `String`s (worked on
through their `List Char` data); Python text helpers (`in`, `find`, `index`,
`split`, `replace`, `strip`, slicing) are modelled by explicit executable
functions below.  Fallible Python code (statements that can raise) is modelled
with `Except Unit`; `datetime` values are modelled as opaque integers.
-/

namespace PastUSB

/-- Model of Python's substring search: index of the first occurrence of `pat`
in `s`, or `none` when `pat` does not occur.  (`s.find(pat)` / `s.index(pat)`.) -/
def firstOccur : List Char → List Char → Option Nat
  | [], pat => if pat = [] then some 0 else none
  | c :: tl, pat =>
    if pat.isPrefixOf (c :: tl) then some 0
    else (firstOccur tl pat).map (· + 1)

/-- Model of Python's `pat in s` substring test. -/
def strContains (s pat : String) : Bool :=
  (firstOccur s.data pat.data).isSome

/-- Model of Python's `s.rindex(pat)` search: index of the last occurrence. -/
def lastOccur (s pat : List Char) : Option Nat :=
  (firstOccur s.reverse pat.reverse).map (fun i => s.length - pat.length - i)

/-- Model of Python's `s.startswith(pat)`. -/
def pyStartswith (s pat : String) : Bool :=
  pat.data.isPrefixOf s.data

/-- The whitespace set stripped by Python's `str.strip()`. -/
def pyIsSpace (c : Char) : Bool :=
  c = ' ' || c = '\t' || c = '\n' || c = '\r' || c = '\x0b' || c = '\x0c'

/-- Model of Python's `s.strip()`. -/
def pyStrip (s : List Char) : List Char :=
  ((s.dropWhile pyIsSpace).reverse.dropWhile pyIsSpace).reverse

/-- Model of Python's `s.split(maxsplit=1)`: split on runs of whitespace at
most once; leading whitespace is skipped, and the second element (when it
exists) is the raw remainder after the first separator run. -/
def pySplitMax1 (s : List Char) : List (List Char) :=
  let s1 := s.dropWhile pyIsSpace
  if s1 = [] then []
  else
    let tok := s1.takeWhile (fun c => !(pyIsSpace c))
    let rest := (s1.dropWhile (fun c => !(pyIsSpace c))).dropWhile pyIsSpace
    if rest = [] then [tok] else [tok, rest]

/-- Model of Python's `s.split(sep)` for a one-character separator `sep`. -/
def pySplitChar (sep : Char) : List Char → List (List Char)
  | [] => [[]]
  | c :: rest =>
    match pySplitChar sep rest with
    | [] => if c = sep then [[], []] else [[c]]
    | h :: t => if c = sep then [] :: h :: t else (c :: h) :: t

/-- Worker for `pyReplace`, structurally recursive on a fuel bound that
dominates the length of the scanned text. -/
def pyReplaceGo : Nat → List Char → List Char → List Char
  | 0, s, _ => s
  | fuel + 1, s, pat =>
    match s with
    | [] => []
    | c :: rest =>
      if pat ≠ [] ∧ pat.isPrefixOf (c :: rest) then
        pyReplaceGo fuel ((c :: rest).drop pat.length) pat
      else
        c :: pyReplaceGo fuel rest pat

/-- Model of Python's `s.replace(pat, '')` (every occurrence of the non-empty
pattern `pat` is deleted, scanning left to right). -/
def pyReplace (s pat : List Char) : List Char :=
  pyReplaceGo s.length s pat

/-!
## Section Extractors (`parse_windows_log_file`, `parse_linux_log_file`)

Both generators in the source read a file line by line; the models below take
the line stream directly (file opening/decompression is the input adapter).
`parse_windows_log_file` calls `next(log_file)` for a one-line lookahead, and
at end of stream that `next` raises `StopIteration` inside the generator,
which Python (PEP 479) surfaces as a `RuntimeError`; the model returns `none`
in exactly that case.
-/

/-- State-machine worker for `parse_windows_log_file`: `sec` is the
accumulated `log_section` buffer.  Faithful to the source's control flow: a
lookahead line whose doubled-marker check fails is consumed and dropped. -/
def pwlGo : List String → List String → Option (List (List String))
  | [], _ => some []
  | line :: rest, sec =>
    if sec.isEmpty ∧ pyStartswith line ">>>" then
      match rest with
      | [] => none
      | next_line :: rest2 =>
        if pyStartswith next_line ">>>" then
          pwlGo rest2 (sec ++ [line, next_line])
        else
          pwlGo rest2 sec
    else if ¬ sec.isEmpty ∧ pyStartswith line "<<<" then
      match rest with
      | [] => none
      | next_line :: rest2 =>
        if pyStartswith next_line "<<<" then
          (pwlGo rest2 []).map (fun out => (sec ++ [line, next_line]) :: out)
        else
          pwlGo rest2 (sec ++ [line])
    else if ¬ sec.isEmpty then
      pwlGo rest (sec ++ [line])
    else
      pwlGo rest sec

/-- Model of `parse_windows_log_file`: the sections yielded on the given line
stream, or `none` when the run dies with a `RuntimeError` (lookahead `next`
past the end of the stream). -/
def parse_windows_log_file (lines : List String) : Option (List (List String)) :=
  pwlGo lines []

/-- State-machine worker for `parse_linux_log_file`: `sec` is the accumulated
`section` buffer.  Faithful to the source: a "New USB device found" line seen
with a non-empty buffer clears the buffer and appends the line, then falls
through to the unconditional `len > 0` append, so the line is buffered twice. -/
def pllGo : List String → List String → List (List String)
  | [], _ => []
  | line :: rest, sec =>
    if strContains line "New USB device found" then
      if sec.isEmpty then
        pllGo rest [line]
      else
        if strContains line "Mounted /dev/sd" then
          [line, line] :: pllGo rest []
        else
          pllGo rest [line, line]
    else
      if sec.isEmpty then
        pllGo rest sec
      else
        if strContains line "Mounted /dev/sd" then
          (sec ++ [line]) :: pllGo rest []
        else
          pllGo rest (sec ++ [line])

/-- Model of `parse_linux_log_file`: sections yielded on the given stream. -/
def parse_linux_log_file (lines : List String) : List (List String) :=
  pllGo lines []

/-!
## Data model (`USBDevice` dataclass hierarchy)

The dataclass inheritance is flattened: each platform record repeats the base
fields.  `datetime` values are modelled as opaque `Int` instants.
-/

/-- The Linux device record (`USBDeviceLinux`, base `USBDevice` fields
flattened in). -/
structure USBDeviceLinux where
  version : Option String := none
  serial_number : Option String := none
  friendly_name : Option String := none
  vendor_id : Option String := none
  product_id : Option String := none
  first_connect_date : Option Int := none
  last_connect_date : Option Int := none
  vendor_name : Option String := none
  product_description : Option String := none
  syslog_manufacturer : Option String := none
  syslog_product : Option String := none
  device_size : Option String := none
deriving Repr, DecidableEq

/-- The Windows device record (`USBDeviceWindows`, base `USBDevice` fields
flattened in). -/
structure USBDeviceWindows where
  version : Option String := none
  serial_number : Option String := none
  friendly_name : Option String := none
  vendor_id : Option String := none
  product_id : Option String := none
  first_connect_date : Option Int := none
  last_connect_date : Option Int := none
  vendor_name : Option String := none
  product_description : Option String := none
  usbstor_vendor : Option String := none
  usbstor_product : Option String := none
  parent_prefix_id : Option String := none
  guid : Option String := none
  drive_letter : Option String := none
deriving Repr, DecidableEq

/-!
## Linux field extractors (`LinuxViewer` static helpers)

Each extractor that can raise in Python (`str.index` / `rindex` raising
`ValueError`, `[-1]` on an empty list raising `IndexError`) is modelled with
`Except Unit`, where `.error ()` is the raised exception.
-/

/-- `LinuxViewer.__get_device_id_by_type`: slice the announcement line from
the first occurrence of `id_type` to the next comma (or end of line), delete
the `id_type=` prefix and strip.  `string.index(id_type)` raises `ValueError`
when the label is absent. -/
def get_device_id_by_type (string id_type : String) : Except Unit String :=
  match firstOccur string.data id_type.data with
  | none => .error ()
  | some index_start =>
    let tail := string.data.drop index_start
    let device_id :=
      match firstOccur tail [','] with
      | some j => tail.take j
      | none => tail
    .ok (String.mk (pyStrip (pyReplace device_id (id_type.data ++ ['=']))))

/-- `LinuxViewer.__get_device_info_from_section`: first line containing
`info_type` yields `line[start+len:].split(maxsplit=1)[-1].strip()`; no line
yields `None`.  The `[-1]` raises `IndexError` when the split is empty
(label present with only whitespace after it). -/
def get_device_info_from_section (sec : List String) (info_type : String) :
    Except Unit (Option String) :=
  match sec with
  | [] => .ok none
  | line :: rest =>
    match firstOccur line.data info_type.data with
    | some start_index =>
      match (pySplitMax1 (line.data.drop (start_index + info_type.data.length))).getLast? with
      | none => .error ()
      | some v => .ok (some (String.mk (pyStrip v)))
    | none => get_device_info_from_section rest info_type

/-- `LinuxViewer.__get_device_size`: first line containing `logical blocks`
yields the strip of the text after the line's last `]` (`rindex` raises
`ValueError` when `]` is absent); no such line yields `None`. -/
def get_device_size (sec : List String) : Except Unit (Option String) :=
  match sec with
  | [] => .ok none
  | line :: rest =>
    if strContains line "logical blocks" then
      match lastOccur line.data [']'] with
      | none => .error ()
      | some index_start => .ok (some (String.mk (pyStrip (line.data.drop (index_start + 1)))))
    else get_device_size rest

/-- `LinuxViewer.__get_device_if_exist`: first existing record whose
`serial_number` field equals the looked-up value (Python `==` on optional
strings, so two absent serials compare equal). -/
def get_device_if_exist (usb_devices : List USBDeviceLinux) (serial_number : Option String) :
    Option USBDeviceLinux :=
  match usb_devices with
  | [] => none
  | device :: rest =>
    if device.serial_number = serial_number then some device
    else get_device_if_exist rest serial_number

/-- The new-record construction inlined in `LinuxViewer.__get_base_device_info`
(lines 468-476): build the record from the section, in the source's statement
order (each field extractor can raise).  `sec.head` is `section[0]` and raises
`IndexError` on an empty section; `ct` is the already-computed connect time. -/
def linux_new_device (sec : List String) (_serial_number : Option String) (ct : Int) :
    Except Unit USBDeviceLinux :=
  match sec with
  | [] => .error ()
  | head :: _ => do
    let vid ← get_device_id_by_type head "idVendor"
    let pid ← get_device_id_by_type head "idProduct"
    let ver ← get_device_id_by_type head "bcdDevice"
    let sprod ← get_device_info_from_section sec "Product:"
    let sman ← get_device_info_from_section sec "Manufacturer:"
    let serial2 ← get_device_info_from_section sec "SerialNumber:"
    let fname ← get_device_info_from_section sec "Direct-Access"
    let dsize ← get_device_size sec
    .ok { serial_number := serial2
          first_connect_date := some ct
          last_connect_date := some ct
          vendor_id := some vid
          product_id := some pid
          version := some ver
          syslog_product := sprod
          syslog_manufacturer := sman
          friendly_name := fname
          device_size := dsize
          vendor_name := none
          product_description := none
          -- the constructor argument `_serial_number` initialises the field
          -- before line 474 overwrites it with the re-extracted (identical)
          -- value `serial2`; only the final value is recorded here.
        }

/-- In-place mutation of the record returned by `__get_device_if_exist`:
the first record with the matching serial gets `last_connect_date` updated. -/
def update_last_connect (usb_devices : List USBDeviceLinux) (serial_number : Option String)
    (ct : Int) : List USBDeviceLinux :=
  match usb_devices with
  | [] => []
  | device :: rest =>
    if device.serial_number = serial_number then
      { device with last_connect_date := some ct } :: rest
    else device :: update_last_connect rest serial_number ct

/-- `LinuxViewer.__get_base_device_info`: single pass over the yielded
sections accumulating the record list.  `connectTime` abstracts
`__get_device_connect_time(section[0], year)`, the out-of-band timestamp
resolver (a pure function of the section and the log file's year). -/
def linux_get_base_device_info (connectTime : List String → Int) :
    List (List String) → List USBDeviceLinux → Except Unit (List USBDeviceLinux)
  | [], usb_devices => .ok usb_devices
  | sec :: rest, usb_devices => do
    let serial_number ← get_device_info_from_section sec "SerialNumber:"
    let ct := connectTime sec
    match get_device_if_exist usb_devices serial_number with
    | some _ =>
      linux_get_base_device_info connectTime rest (update_last_connect usb_devices serial_number ct)
    | none => do
      let device ← linux_new_device sec serial_number ct
      linux_get_base_device_info connectTime rest (usb_devices ++ [device])

/-!
## Windows identity parsing and correlation passes (`WindowsViewer`)

The registry collaborator is out of scope; its observable output (ordered
subkey names, value mappings with `defaultdict(lambda: None)` semantics,
binary values as byte lists) is passed in as explicit data.
-/

/-- One device subkey under a USBSTOR key: its name and the two registry
values the source reads from it (`FriendlyName`, `ParentPrefixId`), each
`none` when missing (`defaultdict` returns `None`). -/
structure RegDeviceKey where
  name : String
  friendlyName : Option String
  parentPrefixId : Option String
deriving Repr, DecidableEq

/-- `WindowsViewer.__parse_device_name`: split on `&`; reject unless exactly
4 fields with first field `Disk`; delete every occurrence of `Ven_`, `Prod_`,
`Rev_` from fields 2-4 respectively. -/
def parse_device_name (device_name : String) : Option (String × String × String) :=
  match pySplitChar '&' device_name.data with
  | [f0, f1, f2, f3] =>
    if f0 = "Disk".data then
      some (String.mk (pyReplace f1 "Ven_".data),
            String.mk (pyReplace f2 "Prod_".data),
            String.mk (pyReplace f3 "Rev_".data))
    else none
  | _ => none

/-- `WindowsViewer.__get_base_device_info`: for each USBSTOR key (in registry
order), skip it unless `__parse_device_name` accepts it, then append one
record per device subkey: serial number is the subkey name up to the first
`&`, `parent_prefix_id` falls back to the whole subkey name when the
`ParentPrefixId` value is missing.  No merging of any kind is performed. -/
def windows_get_base_device_info (usbstor_keys : List (String × List RegDeviceKey)) :
    List USBDeviceWindows :=
  (usbstor_keys.map (fun entry =>
    match parse_device_name entry.1 with
    | none => []
    | some (vendor, product, version) =>
      entry.2.map (fun device =>
        { usbstor_vendor := some vendor
          usbstor_product := some product
          version := some version
          serial_number := some (String.mk ((pySplitChar '&' device.name.data).headD []))
          friendly_name := device.friendlyName
          parent_prefix_id := some (device.parentPrefixId.getD device.name) }))).flatten

/-- `convert_binary_to_ascii_string`: keep the bytes strictly between 0 and
128 and map each through `chr`. -/
def convert_binary_to_ascii_string (binary_string : List Nat) : String :=
  String.mk ((binary_string.filter (fun byte => decide (0 < byte) && decide (byte < 128))).map
    (fun byte => Char.ofNat byte))

/-- Inner loop of `WindowsViewer.__set_guids` for one device: scan all
MountedDevices values in order; every value containing the device's
parent-prefix id whose key contains `\Volume` overwrites `guid` with the key
text from its first `{`.  `None in value` raises `TypeError` when the record
has no parent-prefix id, and `key.index` raises `ValueError` when the key has
no `{`. -/
def set_guids_device (registry_values : List (String × List Nat)) (device : USBDeviceWindows) :
    Except Unit USBDeviceWindows :=
  match registry_values with
  | [] => .ok device
  | (key, value) :: rest =>
    match device.parent_prefix_id with
    | none => .error ()
    | some p =>
      let ascii := convert_binary_to_ascii_string value
      if strContains ascii p then
        if strContains key "\\Volume" then
          match firstOccur key.data ['\x7b'] with
          | none => .error ()
          | some guid_start_index =>
            set_guids_device rest
              { device with guid := some (String.mk (key.data.drop guid_start_index)) }
        else set_guids_device rest device
      else set_guids_device rest device

/-- `WindowsViewer.__set_guids`: the per-device scan applied to every record
(outer loop over devices, inner over registry values). -/
def set_guids (registry_values : List (String × List Nat))
    (usb_devices : List USBDeviceWindows) : Except Unit (List USBDeviceWindows) :=
  usb_devices.mapM (set_guids_device registry_values)

/-- Insertion into a Python `dict` modelled as an ordered association list:
an existing key keeps its position and gets the new value, a new key is
appended (Python 3.7+ iteration-order semantics). -/
def pyDictInsert (d : List (String × String)) (k v : String) : List (String × String) :=
  match d with
  | [] => [(k, v)]
  | (k', v') :: rest => if k' = k then (k, v) :: rest else (k', v') :: pyDictInsert rest k v

/-- The dict-building loop of `WindowsViewer.__set_vendor_and_product_ids`:
each USB-path key containing both `VID` and `PID` maps its first subkey name
(the serial number) to the key; `[0]` raises `IndexError` when a key has no
subkeys.  A serial seen twice keeps the later key (dict overwrite). -/
def build_device_dict : List (String × List String) → List (String × String) →
    Except Unit (List (String × String))
  | [], device_dict => .ok device_dict
  | (device_id, subkeys) :: rest, device_dict =>
    if strContains device_id "VID" = false ∨ strContains device_id "PID" = false then
      build_device_dict rest device_dict
    else
      match subkeys with
      | [] => .error ()
      | serial_number :: _ =>
        build_device_dict rest (pyDictInsert device_dict serial_number device_id)

/-- Per-device assignment loop of `__set_vendor_and_product_ids`: every dict
item whose serial equals the record's serial assigns `vendor_id`/`product_id`
from the split device id (`device_info[1]` raises `IndexError` when the id
has no `&`). -/
def set_vendor_product_device (device_dict : List (String × String))
    (device : USBDeviceWindows) : Except Unit USBDeviceWindows :=
  match device_dict with
  | [] => .ok device
  | (serial_number, device_id) :: rest =>
    if device.serial_number = some serial_number then
      match pySplitChar '&' device_id.data with
      | f0 :: f1 :: _ =>
        set_vendor_product_device rest
          { device with vendor_id := some (String.mk (pyReplace f0 "VID_".data))
                        product_id := some (String.mk (pyReplace f1 "PID_".data)) }
      | _ => .error ()
    else set_vendor_product_device rest device

/-- `WindowsViewer.__set_vendor_and_product_ids`: build the serial-to-key
dict from the USB-path subtree, then run the assignment loop on each record. -/
def set_vendor_and_product_ids (usb_path_keys : List (String × List String))
    (usb_devices : List USBDeviceWindows) : Except Unit (List USBDeviceWindows) := do
  let device_dict ← build_device_dict usb_path_keys []
  usb_devices.mapM (set_vendor_product_device device_dict)

/-!
## Enrichment gateway (`get_device_info_from_web`, `BaseViewer._set_devices_info`)
-/

/-- Outcome of the fetch block `urlopen(url)` / `response.read()` /
`.decode('utf-8')` in `get_device_info_from_web`.  The surrounding `try`
catches only `urllib.error.URLError`, so three behaviours are observable:
`ok html` (everything succeeded, `html` is the decoded body), `err` (a
`URLError` was raised and caught), and `fail` (any other exception — e.g. a
`ConnectionResetError` or `http.client.IncompleteRead` while reading the
body, or a `UnicodeDecodeError` from the decode — which the function does
not catch and which propagates to its caller). -/
inductive WebResponse where
  | ok (html : String)
  | err
  | fail
deriving Repr, DecidableEq

/-- The sentinel text assigned to `html` when the fetch raises `URLError`. -/
def errorFetchHtml : String :=
  "\x7b \"vendor\" : \"Error to fetch\",  \"device\" : \"Error to fetch\"\x7d"

/-- Model of Python's `s.find(pat, start)`: first occurrence at or after
`start`, or `-1`. -/
def pyFindFrom (s pat : String) (start : Nat) : Int :=
  match firstOccur (s.data.drop start) pat.data with
  | some i => ((i + start : Nat) : Int)
  | none => -1

/-- Clamp one Python slice endpoint (negative values count from the end). -/
def pySliceIdx (len : Nat) (i : Int) : Nat :=
  if i < 0 then ((len : Int) + i).toNat else min i.toNat len

/-- Model of Python's `s[a:b]` slicing. -/
def pySlice (s : List Char) (a b : Int) : List Char :=
  (s.take (pySliceIdx s.length b)).drop (pySliceIdx s.length a)

/-- The anchored text search of `get_device_info_from_web` after the fetch
block has produced `html`: each of the two fields is `None` when its anchor
is absent from `html`. -/
def web_parse_html (html : String) : Option String × Option String :=
  let start_vendor := pyFindFrom html "--type-vendor" 0
  let vendor_name :=
    if start_vendor = -1 then none
    else
      let start_vendor2 := pyFindFrom html "details__heading" start_vendor.toNat + 17
      let end_vendor := pyFindFrom html "<" start_vendor2.toNat
      some (String.mk (pyReplace (pyStrip (pySlice html.data start_vendor2 end_vendor))
        ">\n".data))
  let start_device := pyFindFrom html "--type-device" 0
  let device_description :=
    if start_device = -1 then none
    else
      let start_device2 := pyFindFrom html "details__heading" start_device.toNat + 17
      let end_device := pyFindFrom html "<" start_device2.toNat
      some (String.mk (pyReplace (pyStrip (pySlice html.data start_device2 end_device))
        ">\n".data))
  (vendor_name, device_description)

/-- `get_device_info_from_web`: `resp` is the outcome of the fetch block for
the URL built from the vendor and product ids (the ids only select the page,
so the model takes them unused).  On a caught `URLError` the sentinel
`errorFetchHtml` is parsed; an exception the `try` does not catch
(`WebResponse.fail`) propagates to the caller, modelled as `.error ()`. -/
def get_device_info_from_web (resp : WebResponse) (_vendor_id _product_id : String)
    (max_attempts : Int) : Except Unit (Option String × Option String) :=
  if max_attempts ≤ 0 then .ok (none, none)
  else
    match resp with
    | .ok html => .ok (web_parse_html html)
    | .err => .ok (web_parse_html errorFetchHtml)
    | .fail => .error ()

/-- `BaseViewer._set_devices_info` (instantiated at the Linux record type):
records with both ids present get the two enrichment fields overwritten by
the lookup's pair; all other records and fields are untouched.  An exception
raised by the lookup propagates out of the loop (`.error ()`), aborting the
pass with the remaining records unprocessed and no list returned. -/
def set_devices_info (lookup : String → String → Except Unit (Option String × Option String)) :
    List USBDeviceLinux → Except Unit (List USBDeviceLinux)
  | [] => .ok []
  | device :: rest =>
    match device.vendor_id, device.product_id with
    | some vid, some pid => do
      let r ← lookup vid pid
      let rest' ← set_devices_info lookup rest
      .ok ({ device with vendor_name := r.1, product_description := r.2 } :: rest')
    | _, _ => do
      let rest' ← set_devices_info lookup rest
      .ok (device :: rest')

/-!
## Timestamp conversion (`convert_windows_time_to_unix`)

The source computes `int(windows_timestamp / windows_tick -
seconds_to_unix_epoch)` with Python's float true division.  CPython's
`int / int` produces the correctly rounded IEEE-754 double of the exact
quotient (round to nearest, ties to even), `float - int` converts the int to
a double (exact here) and subtracts with the same rounding, and `int(...)`
truncates toward zero.  The model below represents a double exactly as a pair
`(m, t)` standing for `m * 2 ^ t` (magnitudes in this program stay far inside
the normal double range, so overflow and subnormals cannot occur).
-/

/-- Number of binary digits of `n`, by fuel (any fuel at least `n` works). -/
def bitLenGo : Nat → Nat → Nat
  | 0, _ => 0
  | fuel + 1, n => if n = 0 then 0 else bitLenGo fuel (n / 2) + 1

/-- Number of binary digits of `n` (0 for 0). -/
def bitLen (n : Nat) : Nat := bitLenGo n n

/-- Does `a / b ≥ 2 ^ e` hold (for positive naturals `a`, `b`)? -/
def qGePow2 (a b : Nat) (e : Int) : Bool :=
  if 0 ≤ e then b * 2 ^ e.toNat ≤ a else b ≤ a * 2 ^ (-e).toNat

/-- `⌊log₂ (a / b)⌋` for positive naturals `a`, `b`. -/
def floorLog2 (a b : Nat) : Int :=
  let c : Int := (bitLen a : Int) - (bitLen b : Int)
  if qGePow2 a b c then c else c - 1

/-- Nearest integer to `p / q`, ties to even. -/
def roundHalfEven (p q : Nat) : Nat :=
  let n := p / q
  let r := p % q
  if 2 * r < q then n
  else if q < 2 * r then n + 1
  else if n % 2 = 0 then n else n + 1

/-- The IEEE-754 double nearest to `num / den` (ties to even), as a dyadic
pair `(m, t)` with value `m * 2 ^ t` and `2 ^ 52 ≤ |m| ≤ 2 ^ 53` unless the
value is zero. -/
def roundToDouble (num : Int) (den : Nat) : Int × Int :=
  if num = 0 then (0, 0)
  else
    let a := num.natAbs
    let t := floorLog2 a den - 52
    let m := if 0 ≤ t then roundHalfEven a (den * 2 ^ t.toNat)
             else roundHalfEven (a * 2 ^ (-t).toNat) den
    (if num < 0 then -(m : Int) else (m : Int), t)

/-- `convert_windows_time_to_unix`, under the CPython float semantics above:
true-divide the tick count by `10_000_000`, subtract the
`11_644_473_600`-second epoch offset as a float, then truncate toward zero. -/
def convert_windows_time_to_unix (windows_timestamp : Int) : Int :=
  let windows_tick : Nat := 10000000
  let seconds_to_unix_epoch : Int := 11644473600
  let q := roundToDouble windows_timestamp windows_tick
  let d :=
    if 0 ≤ q.2 then
      roundToDouble (q.1 * 2 ^ q.2.toNat - seconds_to_unix_epoch) 1
    else
      roundToDouble (q.1 - seconds_to_unix_epoch * 2 ^ (-q.2).toNat) (2 ^ (-q.2).toNat)
  if 0 ≤ d.2 then d.1 * 2 ^ d.2.toNat else Int.tdiv d.1 (2 ^ (-d.2).toNat)

/-!
## Statement-support definitions

These formalise the quantification domains of the claims (they are not
translations of source code and are only used in theorem statements).
-/

/-- One doubled-marker pair of the Windows setupapi log format: the two start
lines, the body strictly between the markers, and the two end lines. -/
structure WinLogBlock where
  start1 : String
  start2 : String
  body : List String
  end1 : String
  end2 : String
deriving Repr, DecidableEq

/-- The raw lines of one block. -/
def WinLogBlock.lines (b : WinLogBlock) : List String :=
  b.start1 :: b.start2 :: (b.body ++ [b.end1, b.end2])

/-- Validity of a doubled-marker pair: both start lines begin with `>>>`,
both end lines begin with `<<<`, and no body line begins with `<<<`. -/
def WinLogBlock.Valid (b : WinLogBlock) : Prop :=
  pyStartswith b.start1 ">>>" = true ∧ pyStartswith b.start2 ">>>" = true ∧
  (∀ l ∈ b.body, pyStartswith l "<<<" = false) ∧
  pyStartswith b.end1 "<<<" = true ∧ pyStartswith b.end2 "<<<" = true

/-- Modelled from the spec's words (claim C8): a checker for the device-name
convention `Disk&Ven_<vendor>&Prod_<product>&Rev_<version>` — exactly four
ampersand-separated fields, the first literally `Disk`, the remaining three
carrying the `Ven_` / `Prod_` / `Rev_` prefixes. -/
def specDeviceNameForm (device_name : String) : Bool :=
  match pySplitChar '&' device_name.data with
  | [f0, f1, f2, f3] =>
    decide (f0 = "Disk".data) && "Ven_".data.isPrefixOf f1 &&
      "Prod_".data.isPrefixOf f2 && "Rev_".data.isPrefixOf f3
  | _ => false

/-- A MountedDevices entry `(key, value)` that the `__set_guids` scan treats
as a match for parent-prefix id `p`: the ASCII rendering of the binary value
contains `p` and the key contains `\Volume` (such an entry assigns, or raises
when the key has no `{`). -/
def GuidAssigns (p : String) (kv : String × List Nat) : Prop :=
  strContains (convert_binary_to_ascii_string kv.2) p = true ∧
  strContains kv.1 "\\Volume" = true

/-- An entry that cannot raise in the `__set_guids` scan for parent-prefix id
`p`: if it matches, its key contains a `{`. -/
def GuidSafe (p : String) (kv : String × List Nat) : Prop :=
  GuidAssigns p kv → (firstOccur kv.1.data ['\x7b']).isSome = true

/-- Two Windows records agreeing on every field except possibly `guid`
(frame predicate for the `__set_guids` pass). -/
def SameExceptGuid (a b : USBDeviceWindows) : Prop :=
  a.version = b.version ∧ a.serial_number = b.serial_number ∧
  a.friendly_name = b.friendly_name ∧ a.vendor_id = b.vendor_id ∧
  a.product_id = b.product_id ∧ a.first_connect_date = b.first_connect_date ∧
  a.last_connect_date = b.last_connect_date ∧ a.vendor_name = b.vendor_name ∧
  a.product_description = b.product_description ∧ a.usbstor_vendor = b.usbstor_vendor ∧
  a.usbstor_product = b.usbstor_product ∧ a.parent_prefix_id = b.parent_prefix_id ∧
  a.drive_letter = b.drive_letter

/-!
## Helper lemmas
-/

theorem firstOccur_eq_none (s pat : String) (h : strContains s pat = false) :
    firstOccur s.data pat.data = none := by
  unfold strContains at h
  cases heq : firstOccur s.data pat.data with
  | none => rfl
  | some i => rw [heq] at h; simp at h

theorem isEmpty_eq_false_of_ne_nil {α : Type} {l : List α} (h : l ≠ []) :
    l.isEmpty = false := by
  cases l with
  | nil => exact absurd rfl h
  | cons a tl => rfl

/-!
## C5 — `convert_windows_time_to_unix` (code bug)
-/

/-- C5: the claim asks that for every 64-bit FILETIME tick count `V` the
result `U` satisfy the truncation window `0 ≤ V - (U + 11644473600) * 10^7 <
10^7`.  The code computes `int(V / 10**7 - 11644473600)` with float true
division, and at `V = 116444735999999999` (a valid FILETIME one tick before
the unix epoch) the correctly rounded double of `V / 10^7` is exactly
`11644473600.0`, so the code returns `U = 0` and `V - (U + 11644473600) *
10^7 = -1`, violating the window (the intended integer division gives
`U = -1`). -/
theorem c5_filetime_truncation_window_fails_in_code :
    convert_windows_time_to_unix 116444735999999999 = 0 ∧
    ¬ (0 ≤ (116444735999999999 : Int) - (0 + 11644473600) * 10000000) := by
  exact ⟨by decide, by decide⟩

/-!
## C10 — `parse_windows_log_file` lookahead past end of stream
-/

/-- C10: the Windows section extractor is not total.  When the stream ends
right after a line beginning with `>>>` while the buffer is empty, or right
after a line beginning with `<<<` while a section is open, the internal
`next(log_file)` lookahead raises `StopIteration`, surfaced as a
`RuntimeError` (modelled as `none`) instead of a clean end of the section
sequence. -/
theorem c10_lookahead_runtime_error :
    (∀ line : String, pyStartswith line ">>>" = true → pwlGo [line] [] = none) ∧
    (∀ (line : String) (sec : List String), sec ≠ [] →
      pyStartswith line "<<<" = true → pwlGo [line] sec = none) ∧
    parse_windows_log_file [">>>  [Device Install (Hardware initiated) - USB]"] = none := by
  refine ⟨?_, ?_, by decide⟩
  · intro line h
    simp [pwlGo, h]
  · intro line sec hsec h
    have he := isEmpty_eq_false_of_ne_nil hsec
    simp [pwlGo, he, h]

/-- Witness for C10 at concrete inputs. -/
theorem c10_lookahead_runtime_error_witness :
    pwlGo [">>> start"] [] = none ∧ pwlGo ["<<< end"] ["buffered"] = none :=
  ⟨c10_lookahead_runtime_error.1 ">>> start" (by decide),
   c10_lookahead_runtime_error.2.1 "<<< end" ["buffered"] (by decide) (by decide)⟩

/-!
## C3 — `parse_linux_log_file` restart behaviour (corrected)
-/

/-- C3 counterexample: on a restart the announcement line is buffered twice
(cleared-and-appended once, then appended again by the unconditional
in-section append), so the claim's "appearing exactly once at the head of the
buffer" fails: the yielded section holds the second announcement line twice. -/
theorem c3_restart_duplicates_announcement_line :
    parse_linux_log_file
      ["Oct  1 10:00:00 pc kernel: usb 1-1: New USB device found, idVendor=0781",
       "Oct  1 10:00:05 pc kernel: usb 1-2: New USB device found, idVendor=1234",
       "Oct  1 10:00:09 pc systemd[1]: Mounted /dev/sda1."] =
      [["Oct  1 10:00:05 pc kernel: usb 1-2: New USB device found, idVendor=1234",
        "Oct  1 10:00:05 pc kernel: usb 1-2: New USB device found, idVendor=1234",
        "Oct  1 10:00:09 pc systemd[1]: Mounted /dev/sda1."]] ∧
    ((parse_linux_log_file
      ["Oct  1 10:00:00 pc kernel: usb 1-1: New USB device found, idVendor=0781",
       "Oct  1 10:00:05 pc kernel: usb 1-2: New USB device found, idVendor=1234",
       "Oct  1 10:00:09 pc systemd[1]: Mounted /dev/sda1."]).headD []).count
      "Oct  1 10:00:05 pc kernel: usb 1-2: New USB device found, idVendor=1234" = 2 := by
  exact ⟨by decide, by decide⟩

/-- C3 (amended): sections are yielded exactly at mount-phrase lines reached
after an announcement; an announcement seen while a section is open discards
the unfinished section and restarts with the announcement line buffered
twice (once by the restart branch, once by the unconditional in-section
append), while a fresh announcement buffers it once; a section still open at
end of stream is never yielded; two consecutive announcements with no
intervening mount line yield nothing for the first while the second opens
the only attempted section. -/
theorem c3_linux_sections_amended :
    (∀ (line : String) (rest sec : List String), sec ≠ [] →
      strContains line "New USB device found" = true →
      strContains line "Mounted /dev/sd" = false →
      pllGo (line :: rest) sec = pllGo rest [line, line]) ∧
    (∀ (line : String) (rest : List String),
      strContains line "New USB device found" = true →
      pllGo (line :: rest) [] = pllGo rest [line]) ∧
    (∀ sec : List String, pllGo [] sec = []) ∧
    (∀ (line : String) (rest sec : List String), sec ≠ [] →
      strContains line "New USB device found" = false →
      strContains line "Mounted /dev/sd" = true →
      pllGo (line :: rest) sec = (sec ++ [line]) :: pllGo rest []) ∧
    (∀ a1 a2 m : String,
      strContains a1 "New USB device found" = true →
      strContains a2 "New USB device found" = true →
      strContains a2 "Mounted /dev/sd" = false →
      strContains m "New USB device found" = false →
      strContains m "Mounted /dev/sd" = true →
      parse_linux_log_file [a1, a2, m] = [[a2, a2, m]]) := by
  refine ⟨?_, ?_, ?_, ?_, ?_⟩
  · intro line rest sec hsec h1 h2
    have he := isEmpty_eq_false_of_ne_nil hsec
    simp [pllGo, he, h1, h2]
  · intro line rest h1
    simp [pllGo, h1]
  · intro sec; rfl
  · intro line rest sec hsec h1 h2
    have he := isEmpty_eq_false_of_ne_nil hsec
    simp [pllGo, he, h1, h2]
  · intro a1 a2 m h1 h2 h3 h4 h5
    unfold parse_linux_log_file
    simp [pllGo, h1, h2, h3, h4, h5]

/-- Witness for C3's amended theorem at concrete inputs. -/
theorem c3_linux_sections_amended_witness :
    parse_linux_log_file
      ["a New USB device found 1", "b New USB device found 2", "c Mounted /dev/sdb1"] =
      [["b New USB device found 2", "b New USB device found 2", "c Mounted /dev/sdb1"]] :=
  c3_linux_sections_amended.2.2.2.2 "a New USB device found 1" "b New USB device found 2"
    "c Mounted /dev/sdb1" (by decide) (by decide) (by decide) (by decide) (by decide)

/-!
## C4 — totality of the Linux label extractors (corrected)
-/

/-- C4 counterexample: extraction of the id labels is not total — on an
announcement line not containing `idVendor`, `__get_device_id_by_type` calls
`string.index`, which raises `ValueError` (modelled as `.error ()`) instead
of returning an absent field. -/
theorem c4_missing_id_label_raises :
    get_device_id_by_type "usb 1-1: New USB device found" "idVendor" = .error () := by
  rfl

/-- C4 (amended): the section-scanning extractors are total in the claimed
sense — when the label occurs in no line of the section they return an
absent field and cannot raise — but the id-label extractor (`idVendor`,
`idProduct`, `bcdDevice`) raises `ValueError` whenever its label is absent
from the announcement line, so the fragment is lost. -/
theorem c4_extractor_totality_amended :
    (∀ (sec : List String) (info_type : String),
      (∀ l ∈ sec, strContains l info_type = false) →
      get_device_info_from_section sec info_type = .ok none) ∧
    (∀ sec : List String,
      (∀ l ∈ sec, strContains l "logical blocks" = false) →
      get_device_size sec = .ok none) ∧
    (∀ s id_type : String, strContains s id_type = false →
      get_device_id_by_type s id_type = .error ()) := by
  refine ⟨?_, ?_, ?_⟩
  · intro sec info_type h
    induction sec with
    | nil => rfl
    | cons l tl ih =>
      have h1 : firstOccur l.data info_type.data = none :=
        firstOccur_eq_none l info_type (h l (by simp))
      simp only [get_device_info_from_section, h1]
      exact ih (fun x hx => h x (by simp [hx]))
  · intro sec h
    induction sec with
    | nil => rfl
    | cons l tl ih =>
      have h1 : strContains l "logical blocks" = false := h l (by simp)
      simp only [get_device_size, h1]
      exact ih (fun x hx => h x (by simp [hx]))
  · intro s id_type h
    unfold get_device_id_by_type
    rw [firstOccur_eq_none s id_type h]

/-- Witness for C4's amended theorem at concrete inputs. -/
theorem c4_extractor_totality_amended_witness :
    get_device_info_from_section ["no label here"] "SerialNumber:" = .ok none ∧
    get_device_size ["no label here"] = .ok none ∧
    get_device_id_by_type "no label here" "idVendor" = .error () :=
  ⟨c4_extractor_totality_amended.1 ["no label here"] "SerialNumber:" (by decide),
   c4_extractor_totality_amended.2.1 ["no label here"] (by decide),
   c4_extractor_totality_amended.2.2 "no label here" "idVendor" (by decide)⟩

/-!
## C2 — `parse_windows_log_file` on well-formed doubled-marker streams
-/

theorem pwlGo_body_then_end (body : List String) :
    ∀ (sec : List String) (e1 e2 : String) (rest : List String), sec ≠ [] →
    (∀ l ∈ body, pyStartswith l "<<<" = false) →
    pyStartswith e1 "<<<" = true → pyStartswith e2 "<<<" = true →
    pwlGo (body ++ e1 :: e2 :: rest) sec =
      (pwlGo rest []).map (fun out => (sec ++ body ++ [e1, e2]) :: out) := by
  induction body with
  | nil =>
    intro sec e1 e2 rest hsec hb h1 h2
    have he := isEmpty_eq_false_of_ne_nil hsec
    simp [pwlGo, he, h1, h2]
  | cons m body ih =>
    intro sec e1 e2 rest hsec hb h1 h2
    have he := isEmpty_eq_false_of_ne_nil hsec
    have hm : pyStartswith m "<<<" = false := hb m (by simp)
    have step : pwlGo ((m :: body) ++ e1 :: e2 :: rest) sec =
        pwlGo (body ++ e1 :: e2 :: rest) (sec ++ [m]) := by
      rw [List.cons_append, pwlGo.eq_def]
      simp [he, hm]
    rw [step, ih (sec ++ [m]) e1 e2 rest (by simp) (fun l hl => hb l (by simp [hl])) h1 h2]
    simp [List.append_assoc]

/-- C2: on a stream that is exactly a concatenation of valid doubled-marker
pairs, the Windows section extractor yields exactly one section per pair,
each consisting of the two start lines, the body lines in order, and the two
end lines; since the output is the input's list of blocks, no line is lost
or duplicated across sections. -/
theorem c2_doubled_marker_pairs_extracted :
    ∀ bs : List WinLogBlock, (∀ b ∈ bs, b.Valid) →
      parse_windows_log_file ((bs.map WinLogBlock.lines).flatten) =
        some (bs.map WinLogBlock.lines) := by
  intro bs
  unfold parse_windows_log_file
  induction bs with
  | nil => intro _; rfl
  | cons b tl ih =>
    intro hv
    obtain ⟨h1, h2, hb, h3, h4⟩ := hv b (by simp)
    have hstream : ((b :: tl).map WinLogBlock.lines).flatten =
        b.start1 :: b.start2 :: (b.body ++ (b.end1 :: b.end2 :: (tl.map WinLogBlock.lines).flatten)) := by
      simp [WinLogBlock.lines, List.append_assoc]
    rw [hstream]
    have hopen : pwlGo (b.start1 :: b.start2 ::
        (b.body ++ (b.end1 :: b.end2 :: (tl.map WinLogBlock.lines).flatten))) [] =
        pwlGo (b.body ++ (b.end1 :: b.end2 :: (tl.map WinLogBlock.lines).flatten))
          [b.start1, b.start2] := by
      simp [pwlGo, h1, h2]
    rw [hopen, pwlGo_body_then_end b.body [b.start1, b.start2] b.end1 b.end2 _ (by simp) hb h3 h4,
      ih (fun x hx => hv x (by simp [hx]))]
    simp [WinLogBlock.lines, List.append_assoc]

/-- Witness for C2 on one concrete doubled-marker pair. -/
theorem c2_doubled_marker_pairs_extracted_witness :
    parse_windows_log_file
      ((([⟨">>>  [Device Install (Hardware initiated) - USB]",
          ">>>  Section start 2023/01/01 10:00:00.123",
          ["dvi: body line"],
          "<<<  Section end 2023/01/01 10:00:02.456",
          "<<<  [Exit status: SUCCESS]"⟩] : List WinLogBlock).map WinLogBlock.lines).flatten) =
      some (([⟨">>>  [Device Install (Hardware initiated) - USB]",
          ">>>  Section start 2023/01/01 10:00:00.123",
          ["dvi: body line"],
          "<<<  Section end 2023/01/01 10:00:02.456",
          "<<<  [Exit status: SUCCESS]"⟩] : List WinLogBlock).map WinLogBlock.lines) :=
  c2_doubled_marker_pairs_extracted _ (by
    intro b hb
    rw [List.mem_singleton] at hb
    subst hb
    exact ⟨by decide, by decide, by decide, by decide, by decide⟩)

/-!
## C6 — enrichment failure tolerance (corrected)
-/

theorem get_device_info_from_web_err (v p : String) :
    get_device_info_from_web .err v p 3 = .ok (none, none) := rfl

theorem get_device_info_from_web_fail (v p : String) :
    get_device_info_from_web .fail v p 3 = .error () := rfl

/-- C6 counterexample: not every failure of the enrichment lookup degrades —
the `try` catches only `urllib.error.URLError`, so a fetch failure of any
other kind (a connection reset or incomplete read while reading the body, a
decode error) propagates to the caller and aborts the scan: the pass raises
and the record — with both ids present — appears in no returned list. -/
theorem c6_uncaught_fetch_error_aborts :
    set_devices_info (fun v p => get_device_info_from_web .fail v p 3)
      [{ vendor_id := some "0781", product_id := some "5567" }] = .error () := by rfl

/-- On a stream of `URLError` outcomes the lookup is total, so the pass maps
each record through the pure enrichment step. -/
theorem set_devices_info_err_eq (ds : List USBDeviceLinux) :
    set_devices_info (fun v p => get_device_info_from_web .err v p 3) ds =
      .ok (ds.map (fun device =>
        match device.vendor_id, device.product_id with
        | some _, some _ =>
          { device with vendor_name := none, product_description := none }
        | _, _ => device)) := by
  induction ds with
  | nil => rfl
  | cons a tl ih =>
    rw [set_devices_info.eq_def]
    cases hv : a.vendor_id with
    | none => simp [hv, ih]; rfl
    | some vid =>
      cases hp : a.product_id with
      | none => simp [hv, hp, ih]; rfl
      | some pid => simp [hv, hp, ih]; rfl

/-- C6 (amended): a lookup failure that urllib surfaces as `URLError` is
caught and degrades — the pass returns the full record list in order, every
record keeps all its non-enrichment fields, records with both ids get both
enrichment fields set to `none`, and records without both ids are entirely
untouched.  But a fetch failure that is not a `URLError` (connection reset
or incomplete read during the body read, decode error) is uncaught: the
pass raises to the caller and aborts the scan whenever some record has both
ids, so no record list is returned at all. -/
theorem c6_enrichment_failure_amended :
    (∀ (ds : List USBDeviceLinux) (i : Nat) (d : USBDeviceLinux), ds[i]? = some d →
      ∃ out, set_devices_info (fun v p => get_device_info_from_web .err v p 3) ds
          = .ok out ∧
        out.length = ds.length ∧
        ∃ d', out[i]? = some d' ∧
          d'.version = d.version ∧ d'.serial_number = d.serial_number ∧
          d'.friendly_name = d.friendly_name ∧ d'.vendor_id = d.vendor_id ∧
          d'.product_id = d.product_id ∧ d'.first_connect_date = d.first_connect_date ∧
          d'.last_connect_date = d.last_connect_date ∧
          d'.syslog_manufacturer = d.syslog_manufacturer ∧
          d'.syslog_product = d.syslog_product ∧ d'.device_size = d.device_size ∧
          ((d.vendor_id ≠ none ∧ d.product_id ≠ none) →
            d'.vendor_name = none ∧ d'.product_description = none) ∧
          ((d.vendor_id = none ∨ d.product_id = none) → d' = d)) ∧
    (∀ ds : List USBDeviceLinux,
      (∃ d ∈ ds, d.vendor_id ≠ none ∧ d.product_id ≠ none) →
      set_devices_info (fun v p => get_device_info_from_web .fail v p 3) ds
        = .error ()) := by
  constructor
  · intro ds i d hget
    refine ⟨_, set_devices_info_err_eq ds, by simp, ?_⟩
    cases hv : d.vendor_id with
    | none =>
      refine ⟨d, ?_, rfl, rfl, rfl, hv, rfl, rfl, rfl, rfl, rfl, rfl, ?_, fun _ => rfl⟩
      · rw [List.getElem?_map, hget, Option.map_some']
        simp [hv]
      · intro h; exact absurd rfl h.1
    | some vid =>
      cases hp : d.product_id with
      | none =>
        refine ⟨d, ?_, rfl, rfl, rfl, hv, hp, rfl, rfl, rfl, rfl, rfl, ?_, fun _ => rfl⟩
        · rw [List.getElem?_map, hget, Option.map_some']
          simp [hv, hp]
        · intro h; exact absurd rfl h.2
      | some pid =>
        refine ⟨{ d with vendor_name := none, product_description := none }, ?_,
          rfl, rfl, rfl, hv, hp, rfl, rfl, rfl, rfl, rfl, fun _ => ⟨rfl, rfl⟩, ?_⟩
        · rw [List.getElem?_map, hget, Option.map_some']
          simp [hv, hp]
        · intro h
          cases h with
          | inl h => simp at h
          | inr h => simp at h
  · intro ds
    induction ds with
    | nil => intro hex; simp at hex
    | cons a tl ih =>
      intro hex
      rw [set_devices_info.eq_def]
      cases hv : a.vendor_id with
      | none =>
        obtain ⟨d, hd, h1, h2⟩ := hex
        rcases List.mem_cons.mp hd with rfl | hd'
        · exact absurd hv h1
        · simp [hv, ih ⟨d, hd', h1, h2⟩]; rfl
      | some vid =>
        cases hp : a.product_id with
        | none =>
          obtain ⟨d, hd, h1, h2⟩ := hex
          rcases List.mem_cons.mp hd with rfl | hd'
          · exact absurd hp h2
          · simp [hv, hp, ih ⟨d, hd', h1, h2⟩]; rfl
        | some pid => simp [hv, hp]; rfl

/-- Witness for C6's amended theorem at a concrete single-record list:
the caught `URLError` path returns the record, the uncaught path aborts. -/
theorem c6_enrichment_failure_amended_witness :
    (∃ out, set_devices_info (fun v p => get_device_info_from_web .err v p 3)
        [{ vendor_id := some "0781", product_id := some "5567",
           serial_number := some "AA11" }] = .ok out ∧ out.length = 1) ∧
    set_devices_info (fun v p => get_device_info_from_web .fail v p 3)
        [{ vendor_id := some "0781", product_id := some "5567",
           serial_number := some "AA11" }] = .error () := by
  constructor
  · obtain ⟨out, h1, h2, -⟩ :=
      c6_enrichment_failure_amended.1
        [{ vendor_id := some "0781", product_id := some "5567",
           serial_number := some "AA11" }] 0 _ rfl
    exact ⟨out, h1, h2⟩
  · exact c6_enrichment_failure_amended.2
      [{ vendor_id := some "0781", product_id := some "5567",
         serial_number := some "AA11" }]
      ⟨{ vendor_id := some "0781", product_id := some "5567",
         serial_number := some "AA11" }, by simp, by simp, by simp⟩

/-!
## C7 — Linux correlation pass frame properties
-/

theorem get_device_if_exist_split (xs ys : List USBDeviceLinux) (d : USBDeviceLinux)
    (serial : Option String) (hxs : ∀ x ∈ xs, x.serial_number ≠ serial)
    (hd : d.serial_number = serial) :
    get_device_if_exist (xs ++ d :: ys) serial = some d := by
  induction xs with
  | nil => simp [get_device_if_exist, hd]
  | cons a tl ih =>
    have ha : a.serial_number ≠ serial := hxs a (by simp)
    simp only [List.cons_append, get_device_if_exist, if_neg ha]
    exact ih (fun x hx => hxs x (by simp [hx]))

theorem get_device_if_exist_none (devs : List USBDeviceLinux) (serial : Option String)
    (h : ∀ x ∈ devs, x.serial_number ≠ serial) :
    get_device_if_exist devs serial = none := by
  induction devs with
  | nil => rfl
  | cons a tl ih =>
    have ha : a.serial_number ≠ serial := h a (by simp)
    simp only [get_device_if_exist, if_neg ha]
    exact ih (fun x hx => h x (by simp [hx]))

theorem get_device_if_exist_isSome_iff (devs : List USBDeviceLinux) (serial : Option String) :
    (get_device_if_exist devs serial).isSome = true ↔ ∃ d ∈ devs, d.serial_number = serial := by
  induction devs with
  | nil => simp [get_device_if_exist]
  | cons a tl ih =>
    by_cases ha : a.serial_number = serial
    · simp [get_device_if_exist, ha]
    · simp only [get_device_if_exist, if_neg ha, ih]
      constructor
      · rintro ⟨x, hx, he⟩; exact ⟨x, by simp [hx], he⟩
      · rintro ⟨x, hx, he⟩
        rcases List.mem_cons.mp hx with h | h
        · exact absurd (h ▸ he) ha
        · exact ⟨x, h, he⟩

theorem update_last_connect_split (xs ys : List USBDeviceLinux) (d : USBDeviceLinux)
    (serial : Option String) (ct : Int) (hxs : ∀ x ∈ xs, x.serial_number ≠ serial)
    (hd : d.serial_number = serial) :
    update_last_connect (xs ++ d :: ys) serial ct =
      xs ++ { d with last_connect_date := some ct } :: ys := by
  induction xs with
  | nil => simp [update_last_connect, hd]
  | cons a tl ih =>
    have ha : a.serial_number ≠ serial := hxs a (by simp)
    simp only [List.cons_append]
    rw [update_last_connect, if_neg ha]
    exact congrArg (a :: ·) (ih (fun x hx => hxs x (by simp [hx])))

theorem update_last_connect_length (devs : List USBDeviceLinux) (serial : Option String)
    (ct : Int) : (update_last_connect devs serial ct).length = devs.length := by
  induction devs with
  | nil => rfl
  | cons a tl ih =>
    by_cases ha : a.serial_number = serial
    · simp [update_last_connect, ha]
    · simp [update_last_connect, if_neg ha, ih]

theorem linux_gbdi_cons (t : List String → Int) (sec : List String)
    (rest : List (List String)) (devs : List USBDeviceLinux) :
    linux_get_base_device_info t (sec :: rest) devs =
      (get_device_info_from_section sec "SerialNumber:").bind (fun serial =>
        match get_device_if_exist devs serial with
        | some _ =>
          linux_get_base_device_info t rest (update_last_connect devs serial (t sec))
        | none => (linux_new_device sec serial (t sec)).bind (fun device =>
            linux_get_base_device_info t rest (devs ++ [device]))) := rfl

/-- C7 counterexample: a section whose serial matches no existing record does
not always create and append a record — here the `SerialNumber:` label is
absent (extraction yields the absent value, matching the empty record list
vacuously not at all) and the announcement line lacks `idVendor`, so
`__get_device_id_by_type` raises `ValueError` while building the record: the
pass aborts with no record created and no list produced. -/
theorem c7_no_match_section_can_raise :
    linux_get_base_device_info (fun _ => 0) [["usb 1-1: device attached"]] [] =
      .error () := by rfl

/-- C7 (amended): one step of the Linux single-pass correlation.  When the
section's extracted serial equals (as an optional value) the serial of an
existing record, only that record's `last_connect_date` changes and every
other field of it and every other record is untouched.  When no record
matches, a new record is appended with all existing records unchanged *if*
building it succeeds; but when building it raises (which happens exactly as
in the second conjunct — e.g. the announcement line lacks `idVendor`), no
record is created and the pass aborts with `ValueError` instead of
returning a list. -/
theorem c7_linux_correlation_frame_amended :
    (∀ (connectTime : List String → Int) (sec : List String) (rest : List (List String))
       (serial : Option String),
      get_device_info_from_section sec "SerialNumber:" = .ok serial →
      (∀ (xs ys : List USBDeviceLinux) (d : USBDeviceLinux),
        (∀ x ∈ xs, x.serial_number ≠ serial) → d.serial_number = serial →
        linux_get_base_device_info connectTime (sec :: rest) (xs ++ d :: ys) =
          linux_get_base_device_info connectTime rest
            (xs ++ { d with last_connect_date := some (connectTime sec) } :: ys)) ∧
      (∀ (devs : List USBDeviceLinux) (nd : USBDeviceLinux),
        (∀ x ∈ devs, x.serial_number ≠ serial) →
        linux_new_device sec serial (connectTime sec) = .ok nd →
        linux_get_base_device_info connectTime (sec :: rest) devs =
          linux_get_base_device_info connectTime rest (devs ++ [nd])) ∧
      (∀ devs : List USBDeviceLinux,
        (∀ x ∈ devs, x.serial_number ≠ serial) →
        linux_new_device sec serial (connectTime sec) = .error () →
        linux_get_base_device_info connectTime (sec :: rest) devs = .error ())) ∧
    (∀ (head : String) (tl : List String) (serial : Option String) (ct : Int),
      strContains head "idVendor" = false →
      linux_new_device (head :: tl) serial ct = .error ()) := by
  constructor
  · intro t sec rest serial hser
    refine ⟨?_, ?_, ?_⟩
    · intro xs ys d hxs hd
      rw [linux_gbdi_cons, hser]
      simp only [Except.bind]
      rw [get_device_if_exist_split xs ys d serial hxs hd,
        update_last_connect_split xs ys d serial (t sec) hxs hd]
    · intro devs nd hnone hmk
      rw [linux_gbdi_cons, hser]
      simp only [Except.bind]
      rw [get_device_if_exist_none devs serial hnone, hmk]
    · intro devs hnone hmkerr
      rw [linux_gbdi_cons, hser]
      simp only [Except.bind]
      rw [get_device_if_exist_none devs serial hnone, hmkerr]
  · intro head tl serial ct h
    have hid : get_device_id_by_type head "idVendor" = .error () := by
      unfold get_device_id_by_type
      rw [firstOccur_eq_none head "idVendor" h]
    show (get_device_id_by_type head "idVendor").bind _ = Except.error ()
    rw [hid]
    rfl

/-- Witness for C7's amended theorem: the matched-update step at a concrete
section and record list, and a raising record construction at a concrete
announcement line without `idVendor`. -/
theorem c7_linux_correlation_frame_amended_witness :
    (linux_get_base_device_info (fun _ => 42) [["x SerialNumber: AB12"]]
      [{ serial_number := some "AB12", first_connect_date := some 1 }] =
    linux_get_base_device_info (fun _ => 42) []
      [{ serial_number := some "AB12", first_connect_date := some 1,
         last_connect_date := some 42 }]) ∧
    linux_new_device ["usb 1-1: device attached"] none 0 = .error () := by
  constructor
  · have h := ((c7_linux_correlation_frame_amended.1 (fun _ => 42)
      ["x SerialNumber: AB12"] [] (some "AB12") rfl).1 [] []
      { serial_number := some "AB12", first_connect_date := some 1 } (by simp) rfl)
    simpa using h
  · exact c7_linux_correlation_frame_amended.2 "usb 1-1: device attached" [] none 0
      (by decide)

/-!
## C1 — serial-number keying of the record set (corrected)
-/

/-- C1 counterexample: two Linux sections from which no `SerialNumber:` label
is extracted do not stand alone as two records.  Both extractions yield
`None`, `None == None` matches in `__get_device_if_exist`, and the second
section only updates the first record's `last_connect_date` — one merged
record results where the claim demands two. -/
theorem c1_absent_serial_sections_merge :
    Except.map List.length
      (linux_get_base_device_info (fun _ => 0)
        [["usb 1-1: New USB device found, idVendor=0781, idProduct=5567, bcdDevice= 1.00"],
         ["usb 1-2: New USB device found, idVendor=1111, idProduct=2222, bcdDevice= 2.00"]]
        []) = Except.ok 1 := by rfl

/-- C1 (amended): on the Linux path fragments merge exactly when their
extracted optional serials are equal as optional values — so two sections
with no extracted serial merge into one record instead of standing alone —
and on the Windows path the base pass never merges: every device subkey of
every accepted USBSTOR key yields its own record, so two subkeys sharing the
token before the first `&` produce two records, not one. -/
theorem c1_serial_keying_amended :
    (∀ usbstor_keys : List (String × List RegDeviceKey),
      (windows_get_base_device_info usbstor_keys).length =
        (usbstor_keys.map (fun entry =>
          if (parse_device_name entry.1).isSome then entry.2.length else 0)).sum) ∧
    (∀ (connectTime : List String → Int) (sec : List String) (rest : List (List String))
       (serial : Option String) (devs : List USBDeviceLinux),
      get_device_info_from_section sec "SerialNumber:" = .ok serial →
      ((∃ d ∈ devs, d.serial_number = serial) →
        linux_get_base_device_info connectTime (sec :: rest) devs =
          linux_get_base_device_info connectTime rest
            (update_last_connect devs serial (connectTime sec)) ∧
        (update_last_connect devs serial (connectTime sec)).length = devs.length) ∧
      ((∀ d ∈ devs, d.serial_number ≠ serial) → ∀ nd,
        linux_new_device sec serial (connectTime sec) = .ok nd →
        linux_get_base_device_info connectTime (sec :: rest) devs =
          linux_get_base_device_info connectTime rest (devs ++ [nd]))) := by
  constructor
  · intro usbstor_keys
    induction usbstor_keys with
    | nil => rfl
    | cons e tl ih =>
      obtain ⟨k, devs⟩ := e
      unfold windows_get_base_device_info at ih ⊢
      simp only [List.map_cons, List.flatten_cons, List.length_append, List.sum_cons]
      cases hp : parse_device_name k with
      | none => simpa [hp] using ih
      | some t =>
        obtain ⟨vendor, product, version⟩ := t
        simpa [hp] using ih
  · intro t sec rest serial devs hser
    constructor
    · intro hex
      have hs : (get_device_if_exist devs serial).isSome = true :=
        (get_device_if_exist_isSome_iff devs serial).mpr hex
      refine ⟨?_, update_last_connect_length devs serial (t sec)⟩
      rw [linux_gbdi_cons, hser]
      simp only [Except.bind]
      cases heq : get_device_if_exist devs serial with
      | none => rw [heq] at hs; simp at hs
      | some x => rfl
    · intro hnone nd hmk
      rw [linux_gbdi_cons, hser]
      simp only [Except.bind]
      rw [get_device_if_exist_none devs serial hnone, hmk]

/-- Witness for C1's amended theorem: a section with no extracted serial
merging with an existing no-serial record. -/
theorem c1_serial_keying_amended_witness :
    linux_get_base_device_info (fun _ => 7) [["no serial label at all"]]
      [{ serial_number := none }] =
      linux_get_base_device_info (fun _ => 7) []
        (update_last_connect [{ serial_number := none }] none 7) ∧
    (update_last_connect [{ serial_number := none }] none 7).length = 1 :=
  (c1_serial_keying_amended.2 (fun _ => 7) ["no serial label at all"] [] none
    [{ serial_number := none }] rfl).1 ⟨{ serial_number := none }, by simp, rfl⟩

/-!
## C8 — the Windows device-name convention (corrected)
-/

theorem pySplitChar_ne_nil (sep : Char) (l : List Char) : pySplitChar sep l ≠ [] := by
  cases l with
  | nil => simp [pySplitChar]
  | cons c tl =>
    simp only [pySplitChar]
    cases pySplitChar sep tl with
    | nil => by_cases hc : c = sep <;> simp [hc]
    | cons h t => by_cases hc : c = sep <;> simp [hc]

theorem pySplitChar_no_sep {sep : Char} {xs : List Char} (h : sep ∉ xs) :
    pySplitChar sep xs = [xs] := by
  induction xs with
  | nil => rfl
  | cons c tl ih =>
    have hc : ¬ c = sep := fun e => h (by simp [e])
    have htl := ih (fun hm => h (by simp [hm]))
    simp [pySplitChar, htl, hc]

theorem pySplitChar_append (sep : Char) : ∀ (xs ys : List Char), sep ∉ xs →
    pySplitChar sep (xs ++ sep :: ys) = xs :: pySplitChar sep ys := by
  intro xs
  induction xs with
  | nil =>
    intro ys _
    cases heq : pySplitChar sep ys with
    | nil => exact absurd heq (pySplitChar_ne_nil sep ys)
    | cons h t => simp [pySplitChar, heq]
  | cons c tl ih =>
    intro ys h
    have hc : ¬ c = sep := fun e => h (by simp [e])
    have htl := ih ys (fun hm => h (by simp [hm]))
    simp only [List.cons_append, pySplitChar]
    have htl' : pySplitChar sep (tl.append (sep :: ys)) = tl :: pySplitChar sep ys := htl
    rw [htl']
    simp [hc]

theorem pyReplaceGo_no_occur : ∀ (fuel : Nat) (s pat : List Char),
    firstOccur s pat = none → pyReplaceGo fuel s pat = s := by
  intro fuel
  induction fuel with
  | zero => intro s pat _; rfl
  | succ n ih =>
    intro s pat h
    cases s with
    | nil => rfl
    | cons c tl =>
      simp only [firstOccur] at h
      by_cases hp : pat.isPrefixOf (c :: tl) = true
      · rw [if_pos hp] at h; cases h
      · rw [if_neg hp] at h
        have htl : firstOccur tl pat = none := by
          cases heq : firstOccur tl pat with
          | none => rfl
          | some i => rw [heq] at h; cases h
        simp only [pyReplaceGo]
        rw [if_neg (fun hand => hp hand.2), ih tl pat htl]

theorem pyReplace_strip_prefix (pat v : List Char) (hne : pat ≠ [])
    (hv : firstOccur v pat = none) : pyReplace (pat ++ v) pat = v := by
  cases pat with
  | nil => exact absurd rfl hne
  | cons a as =>
    show pyReplaceGo ((a :: as) ++ v).length ((a :: as) ++ v) (a :: as) = v
    have hlen : ((a :: as) ++ v).length = (as ++ v).length + 1 := by simp
    rw [hlen, List.cons_append, pyReplaceGo]
    have hpre : (a :: as).isPrefixOf (a :: (as ++ v)) = true := by
      rw [List.isPrefixOf_iff_prefix]
      exact List.prefix_append (a :: as) v
    rw [if_pos ⟨by simp, hpre⟩]
    have hdrop : (a :: (as ++ v)).drop (a :: as).length = v := by
      rw [← List.cons_append]
      exact List.drop_left _ _
    rw [hdrop, pyReplaceGo_no_occur _ _ _ hv]

/-- C8 counterexample: the parser's acceptance set strictly exceeds the
claimed form — `Disk&a&b&c` carries none of the `Ven_`/`Prod_`/`Rev_`
prefixes yet is accepted (any 4-field ampersand string led by `Disk` is). -/
theorem c8_acceptance_exceeds_spec_form :
    (parse_device_name "Disk&a&b&c").isSome = true ∧
    specDeviceNameForm "Disk&a&b&c" = false := ⟨by decide, by decide⟩

/-- C8 (amended): the parser accepts exactly the ampersand-split four-field
strings whose first field is `Disk` (the `Ven_`/`Prod_`/`Rev_` prefixes are
not verified); on a string of the claimed prefixed form whose payloads do
not contain the prefix tokens or `&`, the returned values are the payloads
with the prefixes stripped; and the Kingston registry scenario yields
exactly the claimed single record. -/
theorem c8_device_name_convention_amended :
    (∀ s : String, (parse_device_name s).isSome = true ↔
      ((pySplitChar '&' s.data).length = 4 ∧
        (pySplitChar '&' s.data).headD [] = "Disk".data)) ∧
    (∀ v p r : String,
      strContains v "Ven_" = false → strContains p "Prod_" = false →
      strContains r "Rev_" = false →
      ('&' : Char) ∉ v.data → ('&' : Char) ∉ p.data → ('&' : Char) ∉ r.data →
      parse_device_name ("Disk&Ven_" ++ v ++ "&Prod_" ++ p ++ "&Rev_" ++ r) =
        some (v, p, r)) ∧
    windows_get_base_device_info
        [("Disk&Ven_Kingston&Prod_DataTraveler&Rev_1.00",
          [⟨"1234567890AB&0", some "Kingston DataTraveler", none⟩])] =
      [{ usbstor_vendor := some "Kingston", usbstor_product := some "DataTraveler",
         version := some "1.00", serial_number := some "1234567890AB",
         friendly_name := some "Kingston DataTraveler",
         parent_prefix_id := some "1234567890AB&0" }] := by
  refine ⟨?_, ?_, by decide⟩
  · intro s
    unfold parse_device_name
    cases h : pySplitChar '&' s.data with
    | nil => simp
    | cons f0 t0 =>
      cases t0 with
      | nil => simp
      | cons f1 t1 =>
        cases t1 with
        | nil => simp
        | cons f2 t2 =>
          cases t2 with
          | nil => simp
          | cons f3 t3 =>
            cases t3 with
            | nil =>
              by_cases hf : f0 = "Disk".data
              · simp [hf]
              · simp [hf]
            | cons f4 t4 => simp
  · intro v p r hv hp hr hva hpa hra
    have hDisk : ('&' : Char) ∉ "Disk".data := by decide
    have hVen : ('&' : Char) ∉ ("Ven_".data ++ v.data) := by
      intro hm
      rcases List.mem_append.mp hm with h | h
      · revert h; decide
      · exact hva h
    have hProd : ('&' : Char) ∉ ("Prod_".data ++ p.data) := by
      intro hm
      rcases List.mem_append.mp hm with h | h
      · revert h; decide
      · exact hpa h
    have hRev : ('&' : Char) ∉ ("Rev_".data ++ r.data) := by
      intro hm
      rcases List.mem_append.mp hm with h | h
      · revert h; decide
      · exact hra h
    have e1 : "Disk&Ven_".data = "Disk".data ++ '&' :: "Ven_".data := by decide
    have e2 : "&Prod_".data = '&' :: "Prod_".data := by decide
    have e3 : "&Rev_".data = '&' :: "Rev_".data := by decide
    have hfull : ("Disk&Ven_" ++ v ++ "&Prod_" ++ p ++ "&Rev_" ++ r).data =
        "Disk".data ++ '&' :: (("Ven_".data ++ v.data) ++ '&' ::
          (("Prod_".data ++ p.data) ++ '&' :: ("Rev_".data ++ r.data))) := by
      simp [String.data_append, List.append_assoc]
    have hsplit : pySplitChar '&' (("Disk&Ven_" ++ v ++ "&Prod_" ++ p ++ "&Rev_" ++ r).data) =
        ["Disk".data, "Ven_".data ++ v.data, "Prod_".data ++ p.data,
          "Rev_".data ++ r.data] := by
      rw [hfull, pySplitChar_append _ _ _ hDisk, pySplitChar_append _ _ _ hVen,
        pySplitChar_append _ _ _ hProd, pySplitChar_no_sep hRev]
    unfold parse_device_name
    rw [hsplit]
    show (if "Disk".data = "Disk".data then
        some (String.mk (pyReplace ("Ven_".data ++ v.data) "Ven_".data),
              String.mk (pyReplace ("Prod_".data ++ p.data) "Prod_".data),
              String.mk (pyReplace ("Rev_".data ++ r.data) "Rev_".data))
      else none) = some (v, p, r)
    rw [if_pos rfl,
      pyReplace_strip_prefix "Ven_".data v.data (by decide) (firstOccur_eq_none v "Ven_" hv),
      pyReplace_strip_prefix "Prod_".data p.data (by decide) (firstOccur_eq_none p "Prod_" hp),
      pyReplace_strip_prefix "Rev_".data r.data (by decide) (firstOccur_eq_none r "Rev_" hr)]

/-- Witness for C8's amended theorem on a concrete prefixed device name. -/
theorem c8_device_name_convention_amended_witness :
    parse_device_name ("Disk&Ven_" ++ "SanDisk" ++ "&Prod_" ++ "Cruzer" ++ "&Rev_" ++ "8.02") =
      some ("SanDisk", "Cruzer", "8.02") :=
  c8_device_name_convention_amended.2.1 "SanDisk" "Cruzer" "8.02"
    (by decide) (by decide) (by decide) (by decide) (by decide) (by decide)

/-!
## C9 — last-write-wins join ambiguity policy
-/

theorem sameExceptGuid_refl (d : USBDeviceWindows) : SameExceptGuid d d :=
  ⟨rfl, rfl, rfl, rfl, rfl, rfl, rfl, rfl, rfl, rfl, rfl, rfl, rfl⟩

theorem set_guids_device_skip (key : String) (value : List Nat)
    (rest : List (String × List Nat)) (d : USBDeviceWindows) (p : String)
    (hp : d.parent_prefix_id = some p) (h : ¬ GuidAssigns p (key, value)) :
    set_guids_device ((key, value) :: rest) d = set_guids_device rest d := by
  cases h1 : strContains (convert_binary_to_ascii_string value) p with
  | false => simp [set_guids_device, hp, h1]
  | true =>
    have h2 : strContains key "\\Volume" = false := by
      cases h2 : strContains key "\\Volume" with
      | false => rfl
      | true => exact absurd ⟨h1, h2⟩ h
    simp [set_guids_device, hp, h1, h2]

theorem set_guids_device_assign (key : String) (value : List Nat)
    (rest : List (String × List Nat)) (d : USBDeviceWindows) (p : String) (i : Nat)
    (hp : d.parent_prefix_id = some p)
    (h1 : strContains (convert_binary_to_ascii_string value) p = true)
    (h2 : strContains key "\\Volume" = true)
    (hi : firstOccur key.data ['\x7b'] = some i) :
    set_guids_device ((key, value) :: rest) d =
      set_guids_device rest { d with guid := some (String.mk (key.data.drop i)) } := by
  simp [set_guids_device, hp, h1, h2, hi]

theorem set_guids_device_tail_no_match (zs : List (String × List Nat)) :
    ∀ (d : USBDeviceWindows) (p : String), d.parent_prefix_id = some p →
    (∀ kv ∈ zs, ¬ GuidAssigns p kv) → set_guids_device zs d = .ok d := by
  induction zs with
  | nil => intro d p _ _; rfl
  | cons kv tl ih =>
    intro d p hp h
    obtain ⟨key, value⟩ := kv
    rw [set_guids_device_skip key value tl d p hp (h _ (by simp))]
    exact ih d p hp (fun x hx => h x (by simp [hx]))

theorem set_guids_device_prefix_frame (xs : List (String × List Nat)) :
    ∀ (rest : List (String × List Nat)) (d : USBDeviceWindows) (p : String),
    d.parent_prefix_id = some p → (∀ kv ∈ xs, GuidSafe p kv) →
    ∃ d'', set_guids_device (xs ++ rest) d = set_guids_device rest d'' ∧
      d''.parent_prefix_id = some p ∧ SameExceptGuid d'' d := by
  induction xs with
  | nil => intro rest d p hp _; exact ⟨d, rfl, hp, sameExceptGuid_refl d⟩
  | cons kv tl ih =>
    intro rest d p hp hsafe
    obtain ⟨key, value⟩ := kv
    by_cases hA : GuidAssigns p (key, value)
    · obtain ⟨h1, h2⟩ := hA
      have hbrace := hsafe (key, value) (by simp) ⟨h1, h2⟩
      obtain ⟨i, hi⟩ := Option.isSome_iff_exists.mp hbrace
      rw [List.cons_append, set_guids_device_assign key value (tl ++ rest) d p i hp h1 h2 hi]
      obtain ⟨d'', he, hp'', hsame⟩ :=
        ih rest { d with guid := some (String.mk (key.data.drop i)) } p hp
          (fun x hx => hsafe x (by simp [hx]))
      exact ⟨d'', he, hp'', hsame⟩
    · rw [List.cons_append, set_guids_device_skip key value (tl ++ rest) d p hp hA]
      exact ih rest d p hp (fun x hx => hsafe x (by simp [hx]))

/-- C9: join ambiguity is resolved last-write-wins and is never an error.
First conjunct (`__set_guids`): when a record's parent-prefix id is contained
in several MountedDevices values whose keys name a `\Volume`, the scan
assigns the GUID of the *last* matching entry, the field is assigned whenever
at least one match exists, and no other field changes.  Second conjunct
(`__set_vendor_and_product_ids`): when two USB-path keys map the same serial
number, the dict built during the scan keeps the later key, so the record
receives the vendor/product ids of the last matching entry. -/
theorem c9_last_write_wins_join :
    (∀ (xs ys zs : List (String × List Nat)) (k1 k2 : String) (v1 v2 : List Nat)
       (d : USBDeviceWindows) (p : String) (i2 : Nat),
      d.parent_prefix_id = some p →
      (∀ kv ∈ xs, GuidSafe p kv) → (∀ kv ∈ ys, GuidSafe p kv) →
      GuidAssigns p (k1, v1) → (firstOccur k1.data ['\x7b']).isSome = true →
      GuidAssigns p (k2, v2) → firstOccur k2.data ['\x7b'] = some i2 →
      (∀ kv ∈ zs, ¬ GuidAssigns p kv) →
      ∃ d', set_guids (xs ++ (k1, v1) :: ys ++ (k2, v2) :: zs) [d] = .ok [d'] ∧
        d'.guid = some (String.mk (k2.data.drop i2)) ∧ SameExceptGuid d' d) ∧
    (∀ (sn id1 id2 : String) (subk1 subk2 : List String) (d : USBDeviceWindows)
       (f0 f1 : List Char) (fs : List (List Char)),
      strContains id1 "VID" = true → strContains id1 "PID" = true →
      strContains id2 "VID" = true → strContains id2 "PID" = true →
      d.serial_number = some sn →
      pySplitChar '&' id2.data = f0 :: f1 :: fs →
      set_vendor_and_product_ids [(id1, sn :: subk1), (id2, sn :: subk2)] [d] =
        .ok [{ d with vendor_id := some (String.mk (pyReplace f0 "VID_".data)),
                      product_id := some (String.mk (pyReplace f1 "PID_".data)) }]) := by
  constructor
  · intro xs ys zs k1 k2 v1 v2 d p i2 hp hxs hys hA1 hb1 hA2 hi2 hz
    have hsafe : ∀ kv ∈ xs ++ (k1, v1) :: ys, GuidSafe p kv := by
      intro kv hkv
      rcases List.mem_append.mp hkv with h | h
      · exact hxs kv h
      · rcases List.mem_cons.mp h with h | h
        · subst h; exact fun _ => hb1
        · exact hys kv h
    obtain ⟨d'', he, hp'', hsame⟩ :=
      set_guids_device_prefix_frame (xs ++ (k1, v1) :: ys) ((k2, v2) :: zs) d p hp hsafe
    have hdev : set_guids_device (xs ++ (k1, v1) :: ys ++ (k2, v2) :: zs) d =
        .ok { d'' with guid := some (String.mk (k2.data.drop i2)) } := by
      rw [show xs ++ (k1, v1) :: ys ++ (k2, v2) :: zs =
        (xs ++ (k1, v1) :: ys) ++ (k2, v2) :: zs by simp]
      rw [he, set_guids_device_assign k2 v2 zs d'' p i2 hp'' hA2.1 hA2.2 hi2]
      exact set_guids_device_tail_no_match zs _ p hp'' hz
    refine ⟨{ d'' with guid := some (String.mk (k2.data.drop i2)) }, ?_, rfl, hsame⟩
    unfold set_guids
    show List.mapM (set_guids_device (xs ++ (k1, v1) :: ys ++ (k2, v2) :: zs)) [d] = _
    rw [List.mapM_cons, hdev, List.mapM_nil]
    rfl
  · intro sn id1 id2 subk1 subk2 d f0 f1 fs hV1 hP1 hV2 hP2 hser hsplit
    have hdict : build_device_dict [(id1, sn :: subk1), (id2, sn :: subk2)] [] =
        .ok [(sn, id2)] := by
      simp [build_device_dict, hV1, hP1, hV2, hP2, pyDictInsert]
    have hdev : set_vendor_product_device [(sn, id2)] d =
        .ok { d with vendor_id := some (String.mk (pyReplace f0 "VID_".data)),
                     product_id := some (String.mk (pyReplace f1 "PID_".data)) } := by
      unfold set_vendor_product_device
      rw [if_pos hser, hsplit]
      rfl
    unfold set_vendor_and_product_ids
    rw [hdict]
    show List.mapM (set_vendor_product_device [(sn, id2)]) [d] = _
    rw [List.mapM_cons, hdev, List.mapM_nil]
    rfl

/-- Witness for C9 at concrete registry artifacts: two MountedDevices entries
match the same parent-prefix id; the later one's GUID wins, and two USB keys
share a serial; the later one's ids win. -/
theorem c9_last_write_wins_join_witness :
    (∃ d', set_guids
        [("\\DosDevices\\E:", [80, 80, 73, 68]),
         ("\\??\\Volume\x7bG1\x7d", [80, 80, 73, 68]),
         ("\\??\\Volume\x7bG2\x7d", [80, 80, 73, 68])]
        [{ parent_prefix_id := some "PPID" }] = .ok [d'] ∧
      d'.guid = some (String.mk ("\\??\\Volume\x7bG2\x7d".data.drop 10)) ∧
      SameExceptGuid d' { parent_prefix_id := some "PPID" }) ∧
    set_vendor_and_product_ids
        [("VID_0781&PID_5567", ["SER1"]), ("VID_1111&PID_2222", ["SER1"])]
        [{ serial_number := some "SER1" }] =
      .ok [{ serial_number := some "SER1",
             vendor_id := some (String.mk (pyReplace "VID_1111".data "VID_".data)),
             product_id := some (String.mk (pyReplace "PID_2222".data "PID_".data)) }] := by
  constructor
  · exact c9_last_write_wins_join.1 [("\\DosDevices\\E:", [80, 80, 73, 68])] [] []
      "\\??\\Volume\x7bG1\x7d" "\\??\\Volume\x7bG2\x7d" [80, 80, 73, 68] [80, 80, 73, 68]
      { parent_prefix_id := some "PPID" } "PPID" 10
      rfl
      (by intro kv hkv; rw [List.mem_singleton] at hkv; subst hkv
          intro hA; exact absurd hA.2 (by decide))
      (by simp)
      ⟨by decide, by decide⟩ (by decide) ⟨by decide, by decide⟩ (by decide)
      (by simp)
  · exact c9_last_write_wins_join.2 "SER1" "VID_0781&PID_5567" "VID_1111&PID_2222"
      [] [] { serial_number := some "SER1" } "VID_1111".data "PID_2222".data []
      (by decide) (by decide) (by decide) (by decide) rfl (by decide)

end PastUSB
